import Mathlib

/-!
Verification development for the FIRDS benchmark-rate classification engine
(`analyse_data.py`, `benchmark_data.py`, `main.py`).

The Python code is shallowly embedded: dictionaries become structures or
association lists, in-place mutation becomes explicit state passing, and
Python runtime errors (`NameError`, `TypeError`, `KeyError`, `ValueError`)
are made explicit through an error type, with the state at the moment the
exception is raised returned alongside the error (CPython leaves in-place
mutations performed before an exception visible to the caller).

Numeric conventions: Python `int` counters are embedded as `Nat`,
`datetime` values as `Int` (an absolute timestamp in days), `timedelta`
values as `Int` (a signed number of days), and `float` amounts as `Rat`
(exact arithmetic stands in for IEEE doubles; none of the properties
proved here depend on rounding).  Text already parsed from the XML
(`float(...)` / `strptime(...)` calls on well-formed fields that no claim
exercises) is embedded as the parsed value.
-/

/-- A Python runtime exception, tagged with a short message. -/
inductive PyErr where
  | nameError (msg : String)
  | typeError (msg : String)
  | keyError (msg : String)
  | valueError (msg : String)
deriving DecidableEq

/-- Match kinds returned by `is_benchmark` (the strings `'code'`, `'isin'`,
`'name'`, `'root_name'` in the Python source). -/
inductive Mt where
  | code
  | isin
  | name
  | root_name
deriving DecidableEq

/-- One benchmark descriptor from `benchmark_data.py`.  `code = none`
embeds the Python literal `False` used for TONAR and SARON ("has no
code"); `currency = none` embeds Python `None` (the generic LIBOR
family).  `names` and `isins` are Python sets, embedded as lists with
set-flavoured insertion (`setAdd`). -/
structure BmData where
  root_names : List (List String)
  isins : List String
  code : Option String
  names : List String
  currency : Option String
deriving DecidableEq

/-- Python `set.add`: insert a string if it is not already present. -/
def setAdd (x : String) (l : List String) : List String :=
  if x ∈ l then l else l ++ [x]

/-- Python `set |= set` (`update`): add all elements of the second set. -/
def setUnion (l r : List String) : List String :=
  r.foldl (fun acc x => setAdd x acc) l

/-- Python `str.upper` (the source data is ASCII apart from the Euro sign,
on which `Char.toUpper` agrees with Python: it is left unchanged). -/
def upperStr (s : String) : String := String.mk (s.toList.map Char.toUpper)

/-- Split a character list at every separator occurrence, keeping empty
pieces, exactly as `re.split` with a character class does. -/
def splitChars (seps : List Char) : List Char → List String
  | [] => [""]
  | c :: cs =>
    if c ∈ seps then "" :: splitChars seps cs
    else
      match splitChars seps cs with
      | [] => [String.mk [c]]
      | t :: ts => (String.mk (c :: t.toList)) :: ts

/-- `re.split('[ \x2d+]', name)` from `is_benchmark`: tokenize on space,
hyphen and plus, keeping empty tokens between adjacent separators. -/
def tokenize (s : String) : List String :=
  splitChars [' ', '-', '+'] s.toList

/-- Python `==` between an optional rate-descriptor field (`None` when the
key is absent or the XML text was empty) and a descriptor `code` field
(`none` embeds the literal `False`).  In Python `None == False`,
`None == str` and `str == False` are all `False`; only two equal strings
compare equal. -/
def pyCodeEq (a b : Option String) : Bool :=
  match a, b with
  | some x, some y => x == y
  | _, _ => false

/-- Python `x in someSet` where `x` may be `None`: `None` is never a
member of a set of strings. -/
def pyMemOpt (x : Option String) (l : List String) : Bool :=
  match x with
  | some s => s ∈ l
  | none => false

/-- Python truthiness of a string-or-None value (`None` and `''` are
falsy). -/
def pyTruthyStr (x : Option String) : Bool :=
  match x with
  | some s => s ≠ ""
  | none => false

/-! ### The taxonomy data of `benchmark_data.py` -/

/-- The `libors` tuple of `benchmark_data.py`, in declared order: GBP,
USD, CHF, EUR, JPY, then the generic (null-currency) family. -/
def liborsData : List BmData := [
  { root_names := [["GBP", "LIBOR"], ["STERLING", "LIBOR"], ["GBR", "LIBOR"]],
    isins := ["GB00BD080045", "GB00BD07ZZ10", "GB0003117685", "GB0009655183"],
    code := some "LIBO",
    names := ["GBP LIBOR", "BP0003M", "3MTH GBP", "OFFERED GBP RATE", "1MTH GBP",
              "30DAY GBP", "6MTH GBP", "90DAY GBP", "180DAY GBP"],
    currency := some "GBP" },
  { root_names := [["USD", "LIBOR"], ["US", "LIBOR"], ["U.S.$", "LIBOR"]],
    isins := ["GB00BD080714", "GB0003758389", "GB00BD080607", "GB00BD080821",
              "GB00BD080938", "GB0003766598", "GB0003764668", "GB00B5MPDP30",
              "GB00B5M93C29", "GB0003758058", "GB00B1316Y29"],
    code := some "LIBO",
    names := ["USD LIBOR", "US0003M", "OFFERED USD RATE", "1MTH USD", "30DAY USD",
              "3MTH USD", "6MTH USD", "180DAY USD", "90DAY USD"],
    currency := some "USD" },
  { root_names := [["CHF", "LIBOR"], ["SWISS", "FRANC", "LIBOR"]],
    isins := ["GB00BD080F90", "GB00BD080C69"],
    code := some "LIBO",
    names := ["CHF LIBOR"],
    currency := some "CHF" },
  { root_names := [["EUR", "LIBOR"], ["EURO", "LIBOR"]],
    isins := ["GB00BD080482", "GB00BBD82B22", "GB0004356027", "GB00BBD82C39",
              "GB0004356795", "GB0004357090", "GB0004359369"],
    code := some "LIBO",
    names := ["EUR LIBOR", "3MTH EUR", "6MTH EUR", "180DAY EUR"],
    currency := some "EUR" },
  { root_names := [["JPY", "LIBOR"], ["YEN", "LIBOR"]],
    isins := [],
    code := some "LIBO",
    names := ["JPY LIBOR"],
    currency := some "JPY" },
  { root_names := [["LIBOR"]],
    isins := [],
    code := some "LIBO",
    names := ["LIBOR", "LIBOR01", "LONDON INTERBANK MARKET"],
    currency := none }
]

/-- The character-wise reading of the SARON entry's second root-name
element: in the source it is the plain string
`'SWISS AVERAGE RATE OVERNIGHT'` (a tuple comma is missing), and Python
iterates a string character by character. -/
def saronStringRoot : List String :=
  "SWISS AVERAGE RATE OVERNIGHT".toList.map (fun c => String.mk [c])

/-- The `non_libors` dict of `benchmark_data.py` as an association list in
insertion order (Python dicts preserve insertion order). -/
def nonLiborsData : List (String × BmData) := [
  ("EURIBOR",
    { root_names := [["EURIBOR"], ["EUR", "INTERBANK", "OFFERED"], ["EURIB"], ["EURIOBOR"]],
      isins := ["EU0009652783", "EU0009659937", "EU0009652791", "EU000A0X7136",
                "EU0009678507", "EU0005301658", "EU0009652841", "EU0009652890",
                "EU0009652809", "EU000A1L18K0", "EU000A1L18L8", "EU000A0X7128",
                "EU000A1L18V7", "EU000A0X7144", "EU000A1L18R5", "EU000A0X7151"],
      code := some "EURI",
      names := ["EURIBOR", "EURI", "EUROBOR", "1YR EUR", "180Day EUR"],
      currency := some "EUR" }),
  ("EONIA",
    { root_names := [["EONIA"], ["EURO", "OVERNIGHT", "INDEX", "AVERAGE"]],
      isins := ["EU0009659945", "EU0009689967", "EU0009689975"],
      code := some "EONA",
      names := ["EONIA", "EURO OVERNIGHT INDEX AVERAGE"],
      currency := some "EUR" }),
  ("SONIA",
    { root_names := [["SONIA"], ["STERLING", "OVERNIGHT", "INDEX", "AVERAGE"]],
      isins := ["GB00B56Z6W79"],
      code := some "SONA",
      names := ["SONIA", "STERLING OVERNIGHT INTERB"],
      currency := some "GBP" }),
  ("TIBOR",
    { root_names := [["TIBOR"], ["TOKYO", "INTERBANK", "OFFERED"]],
      isins := [],
      code := some "TIBO",
      names := ["TIBOR"],
      currency := some "JPY" }),
  ("TONAR",
    { root_names := [["TONAR"], ["TOKYO", "OVERNIGHT", "AVERAGE"]],
      isins := [],
      code := none,
      names := ["TONAR"],
      currency := some "JPY" }),
  ("ESTR",
    { root_names := [["ESTR"], ["EURO", "SHORT", "TERM", "RATE"], ["EURO", "SHORT-TERM", "RATE"]],
      isins := ["EU000A2X2A25"],
      code := some "ESTR",
      names := ["€STR"],
      currency := some "GBP" }),
  ("SOFR",
    { root_names := [["SOFR"], ["SECURED", "OVERNIGHT", "FINANCING", "RATE"]],
      isins := [],
      code := some "SOFR",
      names := ["SOFR", "SECURED OVERNIGHT FINANCING RATE", "1DAY USD SECURED OVERNIGH"],
      currency := some "USD" }),
  ("SARON",
    { root_names := [["SARON"], saronStringRoot],
      isins := ["CH0049613687"],
      code := none,
      names := ["SARON", "SWISS AVERAGE RATE OVERNIGHT"],
      currency := some "CHF" })
]

/-- Lexicographic code-point comparison of character lists (Python
string comparison). -/
def charListLt : List Char → List Char → Bool
  | [], [] => false
  | [], _ :: _ => true
  | _ :: _, [] => false
  | c :: cs, d :: ds =>
    if c.toNat < d.toNat then true
    else if d.toNat < c.toNat then false
    else charListLt cs ds

/-- Python `<` on strings. -/
def strLt (a b : String) : Bool := charListLt a.toList b.toList

/-- Stable insertion into an ascending list (structural recursion, so
that concrete trackers evaluate inside the kernel). -/
def insertSorted (x : String) : List String → List String
  | [] => [x]
  | y :: ys => if strLt y x then y :: insertSorted x ys else x :: y :: ys

/-- Python `sorted` on a list of strings. -/
def sortStrings (l : List String) : List String := l.foldr insertSorted []

/-- `benchmark_names` from `benchmark_data.py`: the currency-specific
LIBOR labels in declared order, then the non-LIBOR keys sorted
alphabetically.  (`analyse_data.py` refers to this list by the attribute
name `bm_names`, which `benchmark_data.py` does not define; this constant
is the only plausible referent.) -/
def benchmark_names : List String :=
  liborsData.filterMap (fun bm => bm.currency.map (fun c => c ++ " LIBOR"))
    ++ sortStrings (nonLiborsData.map Prod.fst)

/-! ### The rate descriptor (`ir_data` dict of `get_interest_rate`) -/

/-- The `ir_data` dict built by `get_interest_rate`.  Outer `Option`
embeds key presence (`'index_name' in ir_data`), inner `Option` embeds
the possibility that the XML text itself is Python `None`. -/
structure IrData where
  fixed_floating : String
  rate : Option (Option String) := none
  index_name : Option (Option String) := none
  index_code : Option (Option String) := none
  index_isin : Option (Option String) := none
  term : Option (Option String × Rat) := none
  spread : Option Rat := none
deriving DecidableEq

/-! ### The Matcher: `is_benchmark` (analyse_data.py lines 151-170) -/

/-- `is_benchmark(bm_data, ir_data, check_code)`.  The in-place mutation
of `bm_data['names']` on a root-name match is embedded by returning the
updated descriptor as the third component; on every other path the
descriptor is returned unchanged.  `check_code` is the truth value of the
object the caller passes (Python tests it with `and`). -/
def is_benchmark (bm_data : BmData) (ir_data : IrData) (check_code : Bool) :
    Bool × Option Mt × BmData :=
  let name0 := ir_data.index_name.join
  let code := ir_data.index_code.join
  let isin := ir_data.index_isin.join
  if check_code && pyCodeEq code bm_data.code then
    (true, some Mt.code, bm_data)
  else if pyMemOpt isin bm_data.isins then
    (true, some Mt.isin, bm_data)
  else if ¬ pyTruthyStr name0 then
    -- `if not name: return False, None` (absent key, None text or '')
    (false, none, bm_data)
  else
    let name := upperStr (name0.getD "")
    if name ∈ bm_data.names ∨ name ∈ bm_data.isins ∨ pyCodeEq (some name) bm_data.code then
      -- index_name is a recognised name, a recognised ISIN or the code
      (true, some Mt.name, bm_data)
    else if bm_data.root_names.any
        (fun root => root.all (fun word => upperStr word ∈ tokenize name)) then
      (true, some Mt.root_name, { bm_data with names := setAdd name bm_data.names })
    else
      (false, none, bm_data)

/-! ### The Resolver: `is_libor` and `get_benchmark` (lines 172-217) -/

/-- The object bound to a `libors`-typed parameter.  `parse_file` passes
its `non_libors` dict positionally into `parse_security`'s `libors`
parameter, so the embedding keeps both possibilities. -/
inductive LiborsArg where
  | tup (l : List BmData)
  | pyDict (d : List (String × BmData))
deriving DecidableEq

/-- The loop of `is_libor` over the `libors` tuple, threading the
in-place descriptor mutations.  The first component of the result embeds
the Python return value: `none` is the literal `False` (no match),
`some c` is the returned currency object (itself possibly `None`). -/
def is_liborGo (ir_data : IrData) (currency : Option String) :
    List BmData → (Option (Option String) × Option Mt) × List BmData
  | [] => ((none, none), [])
  | bm :: rest =>
    -- check_code = True iff bm_data['currency'] is None
    let check_code := bm.currency.isNone
    let (is_match, match_type, bm') := is_benchmark bm ir_data check_code
    if is_match then
      match bm'.currency with
      | none => ((some currency, match_type), bm' :: rest)
      | some c => ((some (some c), match_type), bm' :: rest)
    else
      let (r, rest') := is_liborGo ir_data currency rest
      (r, bm' :: rest')

/-- `is_libor(ir_data, currency, libors)`.  If the object bound to
`libors` is actually the `non_libors` dict (as happens through
`parse_file`), iterating it yields its string keys and the first
subscript `bm_data['currency']` raises TypeError; an empty dict just
falls through to `return False, None`.  (The diagnostic `print` on lines
173-174 only writes to stdout and is not modelled.) -/
def is_libor (ir_data : IrData) (currency : Option String) :
    LiborsArg → Except PyErr (Option (Option String) × Option Mt) × LiborsArg
  | .tup l =>
    let (r, l') := is_liborGo ir_data currency l
    (.ok r, .tup l')
  | .pyDict d =>
    match d with
    | [] => (.ok (none, none), .pyDict [])
    | _ => (.error (.typeError "string indices must be integers"), .pyDict d)

/-- Python dict lookup on an association list (first binding wins, as
keys are unique in a real dict). -/
def dictGet? {κ α : Type} [DecidableEq κ] : List (κ × α) → κ → Option α
  | [], _ => none
  | (k', v') :: rest, k => if k' = k then some v' else dictGet? rest k

/-- Python dict assignment `d[k] = v`: replace the binding in place, or
append a new one. -/
def dictSet {κ α : Type} [DecidableEq κ] : List (κ × α) → κ → α → List (κ × α)
  | [], k, v => [(k, v)]
  | (k', v') :: rest, k, v =>
    if k' = k then (k, v) :: rest else (k', v') :: dictSet rest k v

/-- Python `d.update(n)`: assign every binding of `n` into `d` in order. -/
def dictUpdate {κ α : Type} [DecidableEq κ] (m n : List (κ × α)) : List (κ × α) :=
  n.foldl (fun acc kv => dictSet acc kv.1 kv.2) m

/-- The module-level `currency_mismatch` dict: ISIN ↦ (benchmark
currency, security currency). -/
def CmLog : Type := List (String × (Option String × Option String))

/-- The `for bm in non_libors` loop of `get_benchmark` (lines 203-208),
threading descriptor mutations and the running `match_type` variable
(which Python reassigns on every iteration and retains from `is_libor`
if the dict is empty).  On a match it returns the benchmark key and the
matched descriptor's currency and stops, leaving later entries unvisited. -/
def nonLiborScan (ir_data : IrData) (check_code : Bool) (mt0 : Option Mt) :
    List (String × BmData) →
      (Option String × Option Mt × Option (Option String)) × List (String × BmData)
  | [] => ((none, mt0, none), [])
  | (k, bm) :: rest =>
    let (is_match, match_type, bm') := is_benchmark bm ir_data check_code
    if is_match then
      ((some k, match_type, some bm'.currency), (k, bm') :: rest)
    else
      let (r, rest') := nonLiborScan ir_data check_code match_type rest
      (r, (k, bm') :: rest')

/-- The tail of `get_benchmark` (lines 210-217): record a currency
mismatch when a benchmark was resolved, the security carries an ISIN and
the benchmark currency differs (Python `!=` on string-or-None values
agrees with `Option` disequality), then return. -/
def gbFinish (benchmark : Option String) (mt : Option Mt)
    (bm_currency currency : Option String) (isin : Option String) (cm : CmLog) :
    (Option String × Option Mt) × CmLog :=
  match benchmark with
  | some b =>
    match isin with
    | some i =>
      if bm_currency ≠ currency then
        ((some b, mt), dictSet cm i (bm_currency, currency))
      else ((some b, mt), cm)
    | none => ((some b, mt), cm)
  | none => ((none, none), cm)

/-- `get_benchmark(ir_data, currency, libors, non_libors, isin)`.
The truth test `if libor_currency:` treats `False`, `None` and the empty
string as falsy.  NOTE (line 204): the scan of the `non_libors` dict
calls `is_benchmark(non_libors[bm], ir_data, currency)`, so the security
currency object itself is bound to `check_code`; its truth value (any
non-empty string is truthy) is what the `check_code and ...` test sees.
(The diagnostic `print` on lines 196-197 is not modelled.) -/
def get_benchmark (ir_data : IrData) (currency : Option String)
    (liborsArg : LiborsArg) (non_libors : List (String × BmData))
    (isin : Option String) (cm : CmLog) :
    Except PyErr (Option String × Option Mt) × LiborsArg × List (String × BmData) × CmLog :=
  match is_libor ir_data currency liborsArg with
  | (.error e, liborsArg') => (.error e, liborsArg', non_libors, cm)
  | (.ok (libor_currency, match_type), liborsArg') =>
    match libor_currency with
    | some (some c) =>
      if c ≠ "" then
        -- benchmark = ' '.join((libor_currency, 'LIBOR'))
        let (r, cm') := gbFinish (some (c ++ " LIBOR")) match_type (some c) currency isin cm
        (.ok r, liborsArg', non_libors, cm')
      else
        let ((bmk, mt2, bmCur), non_libors') :=
          nonLiborScan ir_data (pyTruthyStr currency) match_type non_libors
        let (r, cm') := gbFinish bmk mt2 (bmCur.getD none) currency isin cm
        (.ok r, liborsArg', non_libors', cm')
    | _ =>
      let ((bmk, mt2, bmCur), non_libors') :=
        nonLiborScan ir_data (pyTruthyStr currency) match_type non_libors
      let (r, cm') := gbFinish bmk mt2 (bmCur.getD none) currency isin cm
      (.ok r, liborsArg', non_libors', cm')

/-! ### Security records and field extraction (lines 80-147) -/

/-- The `RefRate` child of a floating `IntrstRate` element: which of the
`Nm` / `ISIN` / `Indx` tags is present (text may itself be empty =
Python `None`), or some other tag, in which case `get_interest_rate`
records no identifier at all. -/
inductive RefRateTag where
  | nm (text : Option String)
  | isinRef (text : Option String)
  | indx (text : Option String)
  | otherRef
deriving DecidableEq

/-- The `IntrstRate` element (`elem[3][3][0]`): fixed-shaped,
floating-shaped (with its term and basis-point spread already parsed
from their numeric text), or some unexpected tag. -/
inductive IntRateElem where
  | fxd (rate : Option String)
  | fltg (ref : RefRateTag) (termUnit : Option String) (termVal : Rat) (spread : Rat)
  | otherTag (tag : String)
deriving DecidableEq

/-- One `RefData` record, with the fields the parsing functions read.
Dates are embedded as day numbers (`Int`); the nominal amount as the
parsed value of `float(elem[3][0].text)`. -/
structure Security where
  isin : Option String
  currency : Option String
  nominal : Rat
  maturity_date : Int
  first_trade : Option Int
  term_date : Option Int
  int_rate : IntRateElem
deriving DecidableEq

def get_isin (elem : Security) : Option String := elem.isin

def get_maturity_date (elem : Security) : Int := elem.maturity_date

def get_tv_dates (elem : Security) : Option Int × Option Int :=
  (elem.first_trade, elem.term_date)

def get_nominal_amount (elem : Security) : Rat := elem.nominal

def get_currency (elem : Security) (convert_DEM : Bool) : Option String :=
  if elem.currency = some "DEM" ∧ convert_DEM then some "EUR" else elem.currency

/-- `get_interest_rate(elem)` (lines 116-135): dispatch on the tag of
`elem[3][3][0]`.  A tag that is neither `Fxd` nor `Fltg` raises
`ValueError`; otherwise the returned dict carries the
`'fixed'`/`'floating'` tag, and for floating rates the single identifier
key named after the `RefRate` child tag (none if that tag is unknown),
the term and the spread. -/
def get_interest_rate (elem : Security) : Except PyErr IrData :=
  match elem.int_rate with
  | .fxd rate => .ok { fixed_floating := "fixed", rate := some rate }
  | .fltg ref u v sp =>
    let base : IrData := { fixed_floating := "floating", term := some (u, v), spread := some sp }
    match ref with
    | .nm t => .ok { base with index_name := some t }
    | .isinRef t => .ok { base with index_isin := some t }
    | .indx t => .ok { base with index_code := some t }
    | .otherRef => .ok base
  | .otherTag tag => .error (.valueError ("Found unexpected interest rate: " ++ tag ++ "."))

/-- The object bound to an `assess_date`/`from_date` parameter: a real
datetime, or the `libors` tuple that `parse_file` passes positionally. -/
inductive AssessArg where
  | dt (t : Int)
  | pyTuple (l : List BmData)
deriving DecidableEq

/-- `ZERO_TIME = timedelta()`. -/
def ZERO_TIME : Int := 0

/-- `get_maturity(elem, from_date)` (lines 91-93).  The body reads
`get_maturity_date(s)`, but no name `s` is in scope inside this function
(its parameter is `elem` and no module-level `s` exists), so every call
raises NameError before any arithmetic happens. -/
def get_maturity (_elem : Security) (_from_date : AssessArg) : Except PyErr Rat :=
  .error (.nameError "name s is not defined")

/-- The arithmetic written on line 92,
`((get_maturity_date(s) - from_date) / day) / 354.25`, as a function of
the two dates (had `s` denoted the element): the difference in days
divided by the day unit, divided by the literal 354.25 that the source
uses. -/
def get_maturity_formula (maturityDate fromDate : Int) : Rat :=
  (((maturityDate : Rat) - (fromDate : Rat)) / 1) / 354.25

/-- Line 269 compares `maturity < ZERO_TIME`: the left side is the
`float` produced by `get_maturity`'s formula, the right side a
`timedelta`; in Python this comparison raises TypeError. -/
def pyLtFloatTd (_x : Rat) (_t : Int) : Except PyErr Bool :=
  .error (.typeError "unorderable types float and timedelta")

/-! ### Trackers (lines 220-255) -/

/-- One per-benchmark aggregate of `TRACKER_PROTOTYPE['benchmark_data']`:
`count` (int), `agg_maturity` (timedelta, embedded as days), and
`agg_nominal` (float, embedded exactly). -/
structure BmAgg where
  count : Nat
  agg_maturity : Int
  agg_nominal : Rat
deriving DecidableEq

/-- The `floating_uncat` buckets: per identifier kind, a dict from the
literal identifier (possibly Python `None`) to an occurrence count. -/
structure UncatMaps where
  index_name : List (Option String × Nat)
  index_code : List (Option String × Nat)
  index_isin : List (Option String × Nat)
deriving DecidableEq

/-- A tracker dict, as a value: the top-level scalar fields plus the
contents of the nested benchmark and uncategorized maps it refers to. -/
structure Tracker where
  last_isin : Option String
  floating : Nat
  fixed : Nat
  duplicates : Nat
  matured : Nat
  delisted : Nat
  zero_nominal : Nat
  floating_uncat : UncatMaps
  benchmark_data : List (String × BmAgg)
deriving DecidableEq

/-- The initial `TRACKER_PROTOTYPE['benchmark_data']`: a zero aggregate
for every `benchmark_names` entry. -/
def protoBenchmarkData : List (String × BmAgg) :=
  benchmark_names.map (fun bm => (bm, { count := 0, agg_maturity := 0, agg_nominal := 0 }))

def emptyUncat : UncatMaps := ⟨[], [], []⟩

/-- The nested maps of `TRACKER_PROTOTYPE` as they currently stand in a
process.  `init_tracker` copies the prototype only shallowly
(`TRACKER_PROTOTYPE.copy()`), so every tracker it returns refers to these
same two maps; no operation ever replaces them with fresh objects, so all
in-process trackers alias them for the life of the process. -/
structure ProcState where
  shBmd : List (String × BmAgg)
  shUncat : UncatMaps
deriving DecidableEq

/-- The prototype maps at module load: all aggregates zero, empty
uncategorized buckets. -/
def procState0 : ProcState := ⟨protoBenchmarkData, emptyUncat⟩

/-- The per-tracker (top-level) part of a tracker returned by
`init_tracker`: the shallow copy gives it its own scalar slots, while the
nested maps stay shared (`ProcState`). -/
structure TrackerSh where
  last_isin : Option String
  floating : Nat
  fixed : Nat
  duplicates : Nat
  matured : Nat
  delisted : Nat
  zero_nominal : Nat
deriving DecidableEq

/-- `init_tracker()` = `TRACKER_PROTOTYPE.copy()`: fresh top-level slots
holding the prototype's scalar values (which no code ever mutates, so
always `None` and zeros); the nested maps are not copied. -/
def init_tracker_sh (_p : ProcState) : TrackerSh := ⟨none, 0, 0, 0, 0, 0, 0⟩

/-- The full dict value a shared tracker denotes when read against the
current process state. -/
def viewTracker (t : TrackerSh) (p : ProcState) : Tracker :=
  ⟨t.last_isin, t.floating, t.fixed, t.duplicates, t.matured, t.delisted,
   t.zero_nominal, p.shUncat, p.shBmd⟩

/-- `sum(t['benchmark_data'][bm][field] for t in trackers)`: a missing
benchmark key in any tracker raises KeyError before anything is written
for that benchmark. -/
def sumBmField {α : Type} [Add α] (f : BmAgg → α) (z : α)
    (trackers : List Tracker) (bm : String) : Except PyErr α :=
  match trackers with
  | [] => .ok z
  | t :: rest =>
    match dictGet? t.benchmark_data bm with
    | none => .error (.keyError bm)
    | some v =>
      match sumBmField f z rest bm with
      | .error e => .error e
      | .ok r => .ok (f v + r)

/-- The benchmark loop of `aggregate_trackers` (lines 247-251), writing
into the shared map entry by entry (count, then nominal, then maturity);
on a KeyError the entries already assigned keep their new values. -/
def aggBmdGo (trackers : List Tracker) :
    List (String × BmAgg) → Except PyErr Unit × List (String × BmAgg)
  | [] => (.ok (), [])
  | (bm, old) :: rest =>
    match sumBmField BmAgg.count 0 trackers bm with
    | .error e => (.error e, (bm, old) :: rest)
    | .ok c =>
      match sumBmField BmAgg.agg_nominal 0 trackers bm with
      | .error e => (.error e, (bm, { old with count := c }) :: rest)
      | .ok n =>
        match sumBmField BmAgg.agg_maturity 0 trackers bm with
        | .error e => (.error e, (bm, { old with count := c, agg_nominal := n }) :: rest)
        | .ok m =>
          match aggBmdGo trackers rest with
          | (.error e, rest') => (.error e, (bm, ⟨c, m, n⟩) :: rest')
          | (.ok _, rest') => (.ok (), (bm, ⟨c, m, n⟩) :: rest')

/-- One step of the uncategorized-bucket loop (lines 252-254): for each
kind key of the tracker's `floating_uncat`, `dict.update` the shared
bucket with the tracker's bucket. -/
def uncatUpdateOne (agg : UncatMaps) (t : Tracker) : UncatMaps :=
  { index_name := dictUpdate agg.index_name t.floating_uncat.index_name,
    index_code := dictUpdate agg.index_code t.floating_uncat.index_code,
    index_isin := dictUpdate agg.index_isin t.floating_uncat.index_isin }

def uncatFold (trackers : List Tracker) (u0 : UncatMaps) : UncatMaps :=
  trackers.foldl uncatUpdateOne u0

/-- `aggregate_trackers(trackers)` (lines 243-255) against the current
process state.  `agg = init_tracker()` gives the result its own scalar
slots but the shared nested maps; the scalar sums land in the result's
own slots, the benchmark sums and the uncategorized-bucket union are
written into the shared maps.  The input trackers are read as the dict
values they denote at call time. -/
def aggregate_trackers_sh (trackers : List Tracker) (p : ProcState) :
    Except PyErr TrackerSh × ProcState :=
  let ini := init_tracker_sh p
  let agg : TrackerSh :=
    { ini with
      floating := (trackers.map Tracker.floating).sum,
      fixed := (trackers.map Tracker.fixed).sum,
      duplicates := (trackers.map Tracker.duplicates).sum,
      matured := (trackers.map Tracker.matured).sum,
      delisted := (trackers.map Tracker.delisted).sum,
      zero_nominal := (trackers.map Tracker.zero_nominal).sum }
  match aggBmdGo trackers p.shBmd with
  | (.error e, partialBmd) => (.error e, ⟨partialBmd, p.shUncat⟩)
  | (.ok _, newBmd) => (.ok agg, ⟨newBmd, uncatFold trackers p.shUncat⟩)

/-- `aggregate_trackers` as run in a process whose prototype maps are
still pristine (the first aggregation of a run, with the input trackers
arriving as independent values, e.g. unpickled from worker processes):
the aggregate dict value it returns. -/
def aggregate_trackers (trackers : List Tracker) : Except PyErr Tracker :=
  match aggregate_trackers_sh trackers procState0 with
  | (.ok a, p') => .ok (viewTracker a p')
  | (.error e, _) => .error e

/-! ### Per-record tracker update: `parse_security` (lines 257-290) -/

/-- `dict.get(k, 0) + 1` followed by assignment: bump the occurrence
count for a literal identifier (line 288). -/
def uncatBump (m : List (Option String × Nat)) (k : Option String) :
    List (Option String × Nat) :=
  dictSet m k ((dictGet? m k).getD 0 + 1)

/-- Lines 278-288 of `parse_security`: the floating-rate step.
`tracker['floating'] += 1`, then the Resolver.  If a benchmark was
resolved, line 282 executes `tracker['benchmark_data'][bm] += 1`: the
subscript yields the per-benchmark dict (KeyError if `bm` is not a key)
and `dict + int` raises TypeError, so lines 283-284 are never reached and
no aggregate field is updated.  If unresolved, each identifier key
present in `ir_data` gets its uncategorized bucket bumped (the loop on
lines 286-288 visits `index_isin`, `index_name`, `index_code` in that
order without breaking). -/
def floating_block (ir_data : IrData) (currency : Option String)
    (_maturity : Rat) (_nominal_amount : Rat) (tracker : Tracker)
    (liborsArg : LiborsArg) (non_libors : List (String × BmData)) (cm : CmLog) :
    Except PyErr Unit × Tracker × LiborsArg × List (String × BmData) × CmLog :=
  let tracker := { tracker with floating := tracker.floating + 1 }
  match get_benchmark ir_data currency liborsArg non_libors none cm with
  | (.error e, liborsArg', non_libors', cm') => (.error e, tracker, liborsArg', non_libors', cm')
  | (.ok (bm?, _match_type), liborsArg', non_libors', cm') =>
    match bm? with
    | some bm =>
      match dictGet? tracker.benchmark_data bm with
      | none => (.error (.keyError bm), tracker, liborsArg', non_libors', cm')
      | some _ =>
        (.error (.typeError "unsupported operand types for +=: dict and int"),
         tracker, liborsArg', non_libors', cm')
    | none =>
      let u := tracker.floating_uncat
      let u := match ir_data.index_isin with
        | some v => { u with index_isin := uncatBump u.index_isin v }
        | none => u
      let u := match ir_data.index_name with
        | some v => { u with index_name := uncatBump u.index_name v }
        | none => u
      let u := match ir_data.index_code with
        | some v => { u with index_code := uncatBump u.index_code v }
        | none => u
      (.ok (), { tracker with floating_uncat := u }, liborsArg', non_libors', cm')

/-- Lines 263-290 of `parse_security`: everything after the delisted
check.  The adjacent-duplicate check compares the record ISIN to
`tracker['last_isin']` with Python `==` (two `None`s compare equal);
`last_isin` is then overwritten before the maturity step, whose
`get_maturity` call raises NameError, and whose comparison against
`ZERO_TIME` would raise TypeError even if it did not. -/
def parse_security_rest (s : Security) (tracker : Tracker) (assess_date : AssessArg)
    (liborsArg : LiborsArg) (non_libors : List (String × BmData)) (cm : CmLog) :
    Except PyErr Unit × Tracker × LiborsArg × List (String × BmData) × CmLog :=
  let isin := get_isin s
  if isin = tracker.last_isin then
    (.ok (), { tracker with duplicates := tracker.duplicates + 1 }, liborsArg, non_libors, cm)
  else
    let tracker := { tracker with last_isin := isin }
    match get_maturity s assess_date with
    | .error e => (.error e, tracker, liborsArg, non_libors, cm)
    | .ok maturity =>
      match pyLtFloatTd maturity ZERO_TIME with
      | .error e => (.error e, tracker, liborsArg, non_libors, cm)
      | .ok matured? =>
        if matured? then
          (.ok (), { tracker with matured := tracker.matured + 1 }, liborsArg, non_libors, cm)
        else
          let nominal_amount := get_nominal_amount s
          if nominal_amount = 0 then
            (.ok (), { tracker with zero_nominal := tracker.zero_nominal + 1 },
             liborsArg, non_libors, cm)
          else
            match get_interest_rate s with
            | .error e => (.error e, tracker, liborsArg, non_libors, cm)
            | .ok ir_data =>
              let currency := get_currency s true
              if ir_data.fixed_floating = "floating" then
                floating_block ir_data currency maturity nominal_amount tracker
                  liborsArg non_libors cm
              else
                (.ok (), { tracker with fixed := tracker.fixed + 1 },
                 liborsArg, non_libors, cm)

/-- `parse_security(s, tracker, assess_date, libors, non_libors)`
(lines 257-290).  First the delisted check: if a termination date is
present it is compared against whatever object is bound to `assess_date`
(comparing a datetime against the tuple `parse_file` passes raises
TypeError); then the rest of the classification chain. -/
def parse_security (s : Security) (tracker : Tracker) (assess_date : AssessArg)
    (liborsArg : LiborsArg) (non_libors : List (String × BmData)) (cm : CmLog) :
    Except PyErr Unit × Tracker × LiborsArg × List (String × BmData) × CmLog :=
  let (_first_trade, term_date) := get_tv_dates s
  match term_date with
  | some t =>
    match assess_date with
    | .dt a =>
      if t < a then
        (.ok (), { tracker with delisted := tracker.delisted + 1 }, liborsArg, non_libors, cm)
      else
        parse_security_rest s tracker assess_date liborsArg non_libors cm
    | .pyTuple _ =>
      (.error (.typeError "cannot compare datetime and tuple"), tracker, liborsArg, non_libors, cm)
  | none => parse_security_rest s tracker assess_date liborsArg non_libors cm

/-- The module dict `benchmark_data.non_libors` as it stands at program
start: the object captured by `parse_security`'s default argument. -/
def nonLiborsDefault : List (String × BmData) := nonLiborsData

/-- The record loop of `parse_file`, threading tracker and taxonomy
state and stopping at the first propagated exception. -/
def parse_fileGo (tracker : Tracker) (liborsTup : List BmData)
    (liborsArg : LiborsArg) (defNL : List (String × BmData)) (cm : CmLog) :
    List Security → Except PyErr Unit × Tracker × LiborsArg × List (String × BmData) × CmLog
  | [] => (.ok (), tracker, liborsArg, defNL, cm)
  | r :: rest =>
    match parse_security r tracker (.pyTuple liborsTup) liborsArg defNL cm with
    | (.error e, tr', la', nl', cm') => (.error e, tr', la', nl', cm')
    | (.ok _, tr', la', nl', cm') => parse_fileGo tr' liborsTup la' nl' cm' rest

/-- `parse_file(fpath, tracker, libors, non_libors)` (lines 292-299),
with the stream of `RefData` elements the XML iterator yields embedded as
a list of records.  Line 298 calls
`parse_security(elem, tracker, libors, non_libors)` positionally: the
`libors` tuple is bound to `parse_security`'s `assess_date` parameter,
the `non_libors` dict to its `libors` parameter, and its `non_libors`
parameter falls back to the module default.  The module-level
`currency_mismatch` dict starts empty. -/
def parse_file (records : List Security) (tracker : Tracker)
    (libors : List BmData) (non_libors : List (String × BmData)) :
    Except PyErr Unit × Tracker × LiborsArg × List (String × BmData) × CmLog :=
  parse_fileGo tracker libors (.pyDict non_libors) nonLiborsDefault [] records

/-! ### Taxonomy merge (`main.py` lines 109-116) -/

/-- `for i, j in zip(agg_libors, _libors): i['names'] |= j['names']`:
union the j-names into the corresponding i entry in place; `zip`
truncates to the shorter list, entries of the first list beyond it are
left as they are. -/
def zipUnionNames : List BmData → List BmData → List BmData
  | [], _ => []
  | xs, [] => xs
  | x :: xs, y :: ys => { x with names := setUnion x.names y.names } :: zipUnionNames xs ys

/-- `main.parse_multi_files` lines 109-112: starting from the first
worker's libors copy, union every later copy's learned names in. -/
def mergeLiborNames (c : List BmData) (cs : List (List BmData)) : List BmData :=
  cs.foldl zipUnionNames c

/-- The inner loop of the non-libors merge (lines 114-116): for each key
of one worker copy, union its names into the aggregate's entry for that
key; a key the aggregate lacks raises KeyError, leaving the entries
already updated in place. -/
def mergeNLStep (agg : List (String × BmData)) :
    List (String × BmData) → Except PyErr Unit × List (String × BmData)
  | [] => (.ok (), agg)
  | (k, v) :: rest =>
    match dictGet? agg k with
    | none => (.error (.keyError k), agg)
    | some a => mergeNLStep (dictSet agg k { a with names := setUnion a.names v.names }) rest

/-- `main.parse_multi_files` lines 113-116: starting from the first
worker's non-libors copy, union every later copy's learned names in,
stopping at the first KeyError. -/
def mergeNonLiborNames (c : List (String × BmData)) :
    List (List (String × BmData)) → Except PyErr Unit × List (String × BmData)
  | [] => (.ok (), c)
  | d :: ds =>
    match mergeNLStep c d with
    | (.error e, c') => (.error e, c')
    | (.ok _, c') => mergeNonLiborNames c' ds

/-! ### Auxiliary predicates, relations and sample data used by the
theorems below -/

/-- Equality of embedded Python results is decidable (needed to evaluate
concrete runs inside proofs). -/
instance {ε α : Type} [DecidableEq ε] [DecidableEq α] : DecidableEq (Except ε α) := fun x y =>
  match x, y with
  | .ok a, .ok b => if h : a = b then isTrue (by rw [h]) else isFalse (by simp [h])
  | .error a, .error b => if h : a = b then isTrue (by rw [h]) else isFalse (by simp [h])
  | .ok _, .error _ => isFalse (by simp)
  | .error _, .ok _ => isFalse (by simp)

/-- The element carries the `Fxd` tag. -/
def isFixedShaped : IntRateElem → Bool
  | .fxd _ => true
  | _ => false

/-- The element carries the `Fltg` tag. -/
def isFloatingShaped : IntRateElem → Bool
  | .fltg _ _ _ _ => true
  | _ => false

/-- The embedded call raised an exception. -/
def isPyError {α : Type} : Except PyErr α → Bool
  | .error _ => true
  | .ok _ => false

/-- The identifier kinds of the `floating_uncat` buckets. -/
inductive UncatKind where
  | iname
  | icode
  | iisin
deriving DecidableEq

/-- Select one uncategorized bucket by kind. -/
def uncatOf (u : UncatMaps) : UncatKind → List (Option String × Nat)
  | .iname => u.index_name
  | .icode => u.index_code
  | .iisin => u.index_isin

/-- A descriptor's known-names set grew (or stayed equal). -/
def NamesGrow (a b : BmData) : Prop := a.names ⊆ b.names

/-- Pointwise name growth along a descriptor list. -/
def LiborListGrow (l l' : List BmData) : Prop := List.Forall₂ NamesGrow l l'

/-- Pointwise name growth along a keyed descriptor list (keys
preserved). -/
def NLGrow (m m' : List (String × BmData)) : Prop :=
  List.Forall₂ (fun a b => a.1 = b.1 ∧ a.2.names ⊆ b.2.names) m m'

/-- Name growth for whatever object is bound to a `libors` parameter. -/
def LiborsArgGrow : LiborsArg → LiborsArg → Prop
  | .tup l, .tup l' => LiborListGrow l l'
  | .pyDict d, .pyDict d' => NLGrow d d'
  | .tup _, .pyDict _ => False
  | .pyDict _, .tup _ => False

/-- Per-benchmark sums over a tracker list (with a zero aggregate as the
lookup default; the aggregation theorems only use this where every lookup
succeeds). -/
def bmCountSum (trackers : List Tracker) (bm : String) : Nat :=
  (trackers.map (fun t => ((dictGet? t.benchmark_data bm).getD ⟨0, 0, 0⟩).count)).sum

def bmMaturitySum (trackers : List Tracker) (bm : String) : Int :=
  (trackers.map (fun t => ((dictGet? t.benchmark_data bm).getD ⟨0, 0, 0⟩).agg_maturity)).sum

def bmNominalSum (trackers : List Tracker) (bm : String) : Rat :=
  (trackers.map (fun t => ((dictGet? t.benchmark_data bm).getD ⟨0, 0, 0⟩).agg_nominal)).sum

/-- Extract the tracker from a successful aggregation (zero tracker on
the error side; only used on runs proved successful). -/
def exOkTrackerSh : Except PyErr TrackerSh → TrackerSh
  | .ok a => a
  | .error _ => ⟨none, 0, 0, 0, 0, 0, 0⟩

/-- A floating rate descriptor naming EURIBOR outright. -/
def irEuribor : IrData :=
  { fixed_floating := "floating", index_name := some (some "EURIBOR"),
    term := some (some "MNTH", 3), spread := some 0 }

/-- A floating rate descriptor carrying only the index code EURI. -/
def irCodeEuri : IrData :=
  { fixed_floating := "floating", index_code := some (some "EURI"),
    term := some (some "MNTH", 3), spread := some 0 }

/-- A floating rate descriptor with a previously unseen EURIBOR-rooted
display name. -/
def irLearn : IrData :=
  { fixed_floating := "floating", index_name := some (some "Some New Euribor Variant"),
    term := some (some "MNTH", 3), spread := some 0 }

/-- The EURIBOR descriptor of the taxonomy. -/
def euriborBm : BmData :=
  { root_names := [["EURIBOR"], ["EUR", "INTERBANK", "OFFERED"], ["EURIB"], ["EURIOBOR"]],
    isins := ["EU0009652783", "EU0009659937", "EU0009652791", "EU000A0X7136",
              "EU0009678507", "EU0005301658", "EU0009652841", "EU0009652890",
              "EU0009652809", "EU000A1L18K0", "EU000A1L18L8", "EU000A0X7128",
              "EU000A1L18V7", "EU000A0X7144", "EU000A1L18R5", "EU000A0X7151"],
    code := some "EURI",
    names := ["EURIBOR", "EURI", "EUROBOR", "1YR EUR", "180Day EUR"],
    currency := some "EUR" }

/-- The tracker dict a fresh `init_tracker()` denotes at process start. -/
def tracker0 : Tracker := viewTracker (init_tracker_sh procState0) procState0

/-- A worker-style tracker value: all zero except one benchmark count. -/
def mkCountTracker (bm : String) (c : Nat) : Tracker :=
  { tracker0 with benchmark_data := dictSet tracker0.benchmark_data bm ⟨c, 0, 0⟩ }

/-- A record with no termination date, a well-formed fixed rate and a
distinct ISIN. -/
def secA : Security :=
  { isin := some "XS0000000001", currency := some "EUR", nominal := 5,
    maturity_date := 400, first_trade := none, term_date := none,
    int_rate := .fxd (some "2.5") }

/-- The same record with a termination date (day 10). -/
def secT : Security := { secA with term_date := some 10 }

/-- In-process regrouping scenario: two one-tracker aggregations run in
the same process, then their results (read through the shared maps)
aggregated again. -/
def c6t1 : Tracker := mkCountTracker "EURIBOR" 1

def c6t2 : Tracker := mkCountTracker "EURIBOR" 2

def c6run1 : Except PyErr TrackerSh × ProcState :=
  aggregate_trackers_sh [c6t1] procState0

def c6run2 : Except PyErr TrackerSh × ProcState :=
  aggregate_trackers_sh [c6t2] c6run1.2

def c6a1 : Tracker := viewTracker (exOkTrackerSh c6run1.1) c6run2.2

def c6a2 : Tracker := viewTracker (exOkTrackerSh c6run2.1) c6run2.2

def c6outer : Except PyErr TrackerSh × ProcState :=
  aggregate_trackers_sh [c6a1, c6a2] c6run2.2

/-- Mutation scenario for `init_tracker` freshness: one aggregation over
a tracker with a nonzero EURIBOR count, then the process state it leaves
behind. -/
def c10state : ProcState :=
  (aggregate_trackers_sh [mkCountTracker "EURIBOR" 5] procState0).2

/-- Sample tracker for the aggregation-specification witness. -/
def c10wt : Tracker := mkCountTracker "SOFR" 2

def c10wrun : Except PyErr TrackerSh × ProcState :=
  aggregate_trackers_sh [c10wt] procState0

/-- Two worker-style trackers that both saw the uncategorized identifier
FOO (2 and 3 times) under the name kind. -/
def c7t1 : Tracker :=
  { tracker0 with floating_uncat := { emptyUncat with index_name := [(some "FOO", 2)] } }

def c7t2 : Tracker :=
  { tracker0 with floating_uncat := { emptyUncat with index_name := [(some "FOO", 3)] } }

/-- The rate dict `get_interest_rate` builds for `secA`. -/
def irdA : IrData := { fixed_floating := "fixed", rate := some (some "2.5") }

/-! ## Theorems -/

/-- C1: FALSIFIED BY THE CODE.  For a floating record that resolves to a
benchmark (here EURIBOR, via its name, with maturity 1 and nominal 1000
against a fresh tracker), the update block does not increment the
benchmark's count: line 282 (`tracker['benchmark_data'][bm] += 1`) adds
1 to the benchmark's whole aggregate dict and raises TypeError, so the
count stays 0, no maturity or nominal is added, and the error propagates;
only the `floating` counter (incremented on line 279 before the failure)
has changed. -/
theorem floating_step_raises_typeerror :
    (floating_block irEuribor (some "EUR") 1 1000 tracker0 (.tup liborsData) nonLiborsData []).1
        = .error (.typeError "unsupported operand types for +=: dict and int")
    ∧ (floating_block irEuribor (some "EUR") 1 1000 tracker0
        (.tup liborsData) nonLiborsData []).2.1.benchmark_data = tracker0.benchmark_data
    ∧ (dictGet? tracker0.benchmark_data "EURIBOR").map BmAgg.count = some 0
    ∧ (floating_block irEuribor (some "EUR") 1 1000 tracker0
        (.tup liborsData) nonLiborsData []).2.1.floating = 1 := by
  decide

/-- C2: FALSIFIED BY THE CODE.  A rate descriptor carrying only the bare
code EURI, resolved for a security in currency EUR, matches the
currency-specific (EUR) EURIBOR descriptor with match kind `code`: line
204 passes the security's currency string as `is_benchmark`'s
`check_code` argument, and any non-empty string is truthy, so the
code-equality rule is active throughout the non-LIBOR scan.  The matcher
itself honours a false `check_code` (third conjunct), so the defect is
the call site. -/
theorem nonlibor_code_match :
    (get_benchmark irCodeEuri (some "EUR") (.tup liborsData) nonLiborsData none []).1
        = .ok (some "EURIBOR", some Mt.code)
    ∧ (dictGet? nonLiborsData "EURIBOR").map BmData.currency = some (some "EUR")
    ∧ (is_benchmark euriborBm irCodeEuri false).1 = false
    ∧ pyTruthyStr (some "EUR") = true := by
  decide

/-- C3: FALSIFIED BY THE CODE.  A record that passes the delisted and
duplicate checks never gets a maturity: `get_maturity` reads
`get_maturity_date(s)` where no name `s` is in scope, so the call raises
NameError (after `last_isin` has already been overwritten) and the record
is not classified `matured`.  Moreover the formula as written divides by
354.25, not 365.25, and its float result is compared against the zero
`timedelta`, a comparison that itself raises TypeError. -/
theorem maturity_step_raises :
    (parse_security secA tracker0 (.dt 0) (.tup liborsData) nonLiborsData []).1
        = .error (.nameError "name s is not defined")
    ∧ (parse_security secA tracker0 (.dt 0) (.tup liborsData) nonLiborsData []).2.1.matured = 0
    ∧ (parse_security secA tracker0 (.dt 0) (.tup liborsData) nonLiborsData []).2.1.last_isin
        = some "XS0000000001"
    ∧ get_maturity_formula 400 0 ≠ ((400 : Rat) - 0) / (365.25 : Rat)
    ∧ pyLtFloatTd (get_maturity_formula 400 0) ZERO_TIME
        = .error (.typeError "unorderable types float and timedelta") := by
  refine ⟨by decide, by decide, by decide, by norm_num [get_maturity_formula], rfl⟩

/-- C4: FALSIFIED BY THE CODE.  `parse_file` has no assessment-date
parameter at all, and line 298 passes its arguments positionally so that
the `libors` tuple lands in `parse_security`'s `assess_date` parameter
and the `non_libors` dict in its `libors` parameter.  Concretely, a
record with a termination date is not checked against any assessment
date: comparing the date against the tuple raises TypeError and nothing
is classified, whereas calling `parse_security` with an actual assessment
date (day 100 > termination day 10) classifies the record `delisted`. -/
theorem parse_file_does_not_forward :
    (parse_file [secT] tracker0 liborsData nonLiborsData).1
        = .error (.typeError "cannot compare datetime and tuple")
    ∧ (parse_file [secT] tracker0 liborsData nonLiborsData).2.1.delisted = 0
    ∧ (parse_security secT tracker0 (.dt 100) (.tup liborsData) nonLiborsData []).1 = .ok ()
    ∧ (parse_security secT tracker0 (.dt 100) (.tup liborsData) nonLiborsData []).2.1.delisted = 1 := by
  decide

/-- C6: FALSIFIED BY THE CODE.  Aggregation is not invariant under
regrouping within one process: every tracker `init_tracker` or
`aggregate_trackers` returns shares the prototype's nested benchmark map,
so after aggregating `[c6t1]` (EURIBOR count 1) and then `[c6t2]`
(EURIBOR count 2) in the same process, both intermediate aggregates read
back as the second one's sums, and aggregating them yields EURIBOR count
4, whereas the flat aggregation of `[c6t1, c6t2]` — in either order, the
permutation half does hold here — yields 3. -/
theorem aggregate_regroup_mismatch :
    (dictGet? c6outer.2.shBmd "EURIBOR").map BmAgg.count = some 4
    ∧ (aggregate_trackers [c6t1, c6t2]).map
        (fun t => (dictGet? t.benchmark_data "EURIBOR").map BmAgg.count) = .ok (some 3)
    ∧ (aggregate_trackers [c6t2, c6t1]).map
        (fun t => (dictGet? t.benchmark_data "EURIBOR").map BmAgg.count) = .ok (some 3)
    ∧ (4 : Nat) ≠ 3 := by
  decide

/-- C10, counterexample: a tracker returned by `init_tracker` does NOT
have all per-benchmark aggregates zero regardless of previous mutations:
after one `aggregate_trackers` call over a tracker with EURIBOR count 5
(which writes its sums into the shared prototype maps), a fresh
`init_tracker()` reads back EURIBOR count 5. -/
theorem init_tracker_not_fresh :
    (dictGet? (viewTracker (init_tracker_sh c10state) c10state).benchmark_data "EURIBOR").map
        BmAgg.count = some 5
    ∧ some (5 : Nat) ≠ some 0 := by
  decide

theorem mem_setAdd_self (x : String) (l : List String) : x ∈ setAdd x l := by
  unfold setAdd
  split
  · assumption
  · simp

theorem sub_setAdd (x : String) (l : List String) : l ⊆ setAdd x l := by
  unfold setAdd
  split
  · exact fun a ha => ha
  · exact fun a ha => List.mem_append_left _ ha

/-- C5: once a matcher call on a descriptor returns a `root_name` match
(learning the upper-cased name), any subsequent call on the resulting
descriptor with the same rate descriptor and the same `check_code`
returns a `name` match and returns the descriptor unchanged: no second
learn event. -/
theorem learned_name_matches_by_name (bm bm' : BmData) (ir : IrData) (cc mFlag : Bool)
    (h : is_benchmark bm ir cc = (mFlag, some Mt.root_name, bm')) :
    is_benchmark bm' ir cc = (true, some Mt.name, bm') := by
  simp only [is_benchmark] at h
  by_cases hA : (cc && pyCodeEq ir.index_code.join bm.code) = true
  · rw [if_pos hA] at h; simp at h
  rw [if_neg hA] at h
  by_cases hB : pyMemOpt ir.index_isin.join bm.isins = true
  · rw [if_pos hB] at h; simp at h
  rw [if_neg hB] at h
  by_cases hC : ¬pyTruthyStr ir.index_name.join = true
  · rw [if_pos hC] at h; simp at h
  rw [if_neg hC] at h
  by_cases hD : upperStr (ir.index_name.join.getD "") ∈ bm.names ∨
      upperStr (ir.index_name.join.getD "") ∈ bm.isins ∨
      pyCodeEq (some (upperStr (ir.index_name.join.getD ""))) bm.code = true
  · rw [if_pos hD] at h; simp at h
  rw [if_neg hD] at h
  by_cases hE : (bm.root_names.any fun root => root.all fun word =>
      decide (upperStr word ∈ tokenize (upperStr (ir.index_name.join.getD "")))) = true
  · rw [if_pos hE] at h
    simp only [Prod.mk.injEq] at h
    obtain ⟨hm, _, hbm⟩ := h
    subst hbm
    simp only [is_benchmark]
    push_neg at hC
    simp [hA, hB, hC, mem_setAdd_self]
    split_ifs with h1 h2 h3 <;> simp_all
  · rw [if_neg hE] at h; simp at h

/-- Witness: the EURIBOR descriptor learns the upper-cased variant name
on a first root-name match and then matches it by `name`. -/
theorem learned_name_matches_by_name_witness :
    is_benchmark ((is_benchmark euriborBm irLearn true).2.2) irLearn true
      = (true, some Mt.name, (is_benchmark euriborBm irLearn true).2.2) :=
  learned_name_matches_by_name euriborBm ((is_benchmark euriborBm irLearn true).2.2)
    irLearn true true (by decide)

/-- C8: `get_interest_rate` raises exactly when the interest-rate
element is neither fixed- nor floating-shaped, and on success the
returned descriptor is tagged exactly `'fixed'` or `'floating'`.  The
function receives neither a tracker nor a taxonomy (it is a pure reader
of the record), so the error path modifies no tracker or taxonomy field
by construction. -/
theorem get_interest_rate_shape (elem : Security) :
    isPyError (get_interest_rate elem)
        = !(isFixedShaped elem.int_rate || isFloatingShaped elem.int_rate)
    ∧ ∀ d : IrData, get_interest_rate elem = .ok d →
        d.fixed_floating = "fixed" ∨ d.fixed_floating = "floating" := by
  constructor
  · rcases hir : elem.int_rate with r | ⟨ref, u, v, sp⟩ | tag <;>
      simp [get_interest_rate, hir, isPyError, isFixedShaped, isFloatingShaped]
    · cases ref <;> rfl
  · intro d hd
    rcases hir : elem.int_rate with r | ⟨ref, u, v, sp⟩ | tag
    · rw [get_interest_rate, hir] at hd
      simp only [Except.ok.injEq] at hd
      left; rw [← hd]
    · rw [get_interest_rate, hir] at hd
      cases ref <;> simp only [Except.ok.injEq] at hd <;> (right; rw [← hd])
    · rw [get_interest_rate, hir] at hd
      simp at hd

/-- Witness: a fixed-shaped element succeeds with the `'fixed'` tag. -/
theorem get_interest_rate_shape_witness :
    (isPyError (get_interest_rate secA)
        = !(isFixedShaped secA.int_rate || isFloatingShaped secA.int_rate))
    ∧ (irdA.fixed_floating = "fixed" ∨ irdA.fixed_floating = "floating") :=
  ⟨(get_interest_rate_shape secA).1, (get_interest_rate_shape secA).2 irdA (by decide)⟩

theorem namesGrow_refl (bm : BmData) : NamesGrow bm bm := fun _ ha => ha

theorem liborListGrow_refl (l : List BmData) : LiborListGrow l l :=
  List.forall₂_same.mpr fun x _ => namesGrow_refl x

theorem nlGrow_refl (m : List (String × BmData)) : NLGrow m m :=
  List.forall₂_same.mpr fun _ _ => ⟨rfl, fun _ ha => ha⟩

theorem liborListGrow_trans {a b c : List BmData}
    (h1 : LiborListGrow a b) (h2 : LiborListGrow b c) : LiborListGrow a c := by
  induction h1 generalizing c with
  | nil => cases h2; exact .nil
  | cons hab _ ih =>
    cases h2 with
    | cons hbc h2t => exact .cons (List.Subset.trans hab hbc) (ih h2t)

theorem nlGrow_trans {a b c : List (String × BmData)}
    (h1 : NLGrow a b) (h2 : NLGrow b c) : NLGrow a c := by
  induction h1 generalizing c with
  | nil => cases h2; exact .nil
  | cons hab _ ih =>
    cases h2 with
    | cons hbc h2t =>
      exact .cons ⟨hab.1.trans hbc.1, List.Subset.trans hab.2 hbc.2⟩ (ih h2t)

theorem names_grow_is_benchmark (bm : BmData) (ir : IrData) (cc : Bool) :
    NamesGrow bm (is_benchmark bm ir cc).2.2 := by
  unfold NamesGrow
  simp only [is_benchmark]
  split_ifs <;> first | (exact fun a ha => ha) | (exact sub_setAdd _ _)

theorem libor_list_grow_is_liborGo (ir : IrData) (cur : Option String) :
    ∀ l : List BmData, LiborListGrow l (is_liborGo ir cur l).2 := by
  intro l
  induction l with
  | nil => exact .nil
  | cons bm rest ih =>
    have hg : NamesGrow bm (is_benchmark bm ir bm.currency.isNone).2.2 :=
      names_grow_is_benchmark bm ir bm.currency.isNone
    rcases hx : is_benchmark bm ir bm.currency.isNone with ⟨m, mt, bm'⟩
    rw [hx] at hg
    simp only [is_liborGo, hx]
    cases m with
    | true =>
      cases bm'.currency <;> exact .cons hg (liborListGrow_refl rest)
    | false => exact .cons hg ih

theorem nl_grow_nonLiborScan (ir : IrData) (cc : Bool) :
    ∀ (mt0 : Option Mt) (nl : List (String × BmData)),
      NLGrow nl (nonLiborScan ir cc mt0 nl).2 := by
  intro mt0 nl
  induction nl generalizing mt0 with
  | nil => exact .nil
  | cons kv rest ih =>
    obtain ⟨k, bm⟩ := kv
    have hg : NamesGrow bm (is_benchmark bm ir cc).2.2 := names_grow_is_benchmark bm ir cc
    rcases hx : is_benchmark bm ir cc with ⟨m, mt, bm'⟩
    rw [hx] at hg
    simp only [nonLiborScan, hx]
    cases m with
    | true => exact .cons ⟨rfl, hg⟩ (nlGrow_refl rest)
    | false => exact .cons ⟨rfl, hg⟩ (ih mt)

theorem liborsArgGrow_is_libor (ir : IrData) (cur : Option String) (arg : LiborsArg) :
    LiborsArgGrow arg (is_libor ir cur arg).2 := by
  cases arg with
  | tup l =>
    simp only [is_libor]
    exact libor_list_grow_is_liborGo ir cur l
  | pyDict d =>
    cases d with
    | nil => exact .nil
    | cons kv rest => exact nlGrow_refl _

theorem liborsArgGrow_refl (arg : LiborsArg) : LiborsArgGrow arg arg := by
  cases arg with
  | tup l => exact liborListGrow_refl l
  | pyDict d => exact nlGrow_refl d

theorem taxonomy_grow_get_benchmark (ir : IrData) (cur : Option String) (arg : LiborsArg)
    (nl : List (String × BmData)) (isin : Option String) (cm : CmLog) :
    LiborsArgGrow arg (get_benchmark ir cur arg nl isin cm).2.1
    ∧ NLGrow nl (get_benchmark ir cur arg nl isin cm).2.2.1 := by
  have hla := liborsArgGrow_is_libor ir cur arg
  rcases hx : is_libor ir cur arg with ⟨res, arg'⟩
  rw [hx] at hla
  simp only [get_benchmark, hx]
  cases res with
  | error e => exact ⟨hla, nlGrow_refl nl⟩
  | ok pr =>
    obtain ⟨lc, mt⟩ := pr
    have hscan := nl_grow_nonLiborScan ir (pyTruthyStr cur) mt nl
    rcases hs : nonLiborScan ir (pyTruthyStr cur) mt nl with ⟨r3, nl'⟩
    rw [hs] at hscan
    obtain ⟨bmk, mt2, bmc⟩ := r3
    cases lc with
    | none => simp only [hs]; exact ⟨hla, hscan⟩
    | some oc =>
      cases oc with
      | none => simp only [hs]; exact ⟨hla, hscan⟩
      | some c =>
        by_cases hc : c ≠ ""
        · simp only [if_pos hc]
          exact ⟨hla, nlGrow_refl nl⟩
        · simp only [if_neg hc, hs]
          exact ⟨hla, hscan⟩

theorem taxonomy_grow_floating_block (ir : IrData) (cur : Option String)
    (mat nom : Rat) (tr : Tracker) (arg : LiborsArg)
    (nl : List (String × BmData)) (cm : CmLog) :
    LiborsArgGrow arg (floating_block ir cur mat nom tr arg nl cm).2.2.1
    ∧ NLGrow nl (floating_block ir cur mat nom tr arg nl cm).2.2.2.1 := by
  have hgb := taxonomy_grow_get_benchmark ir cur arg nl none cm
  rcases hx : get_benchmark ir cur arg nl none cm with ⟨r, arg', nl', cm'⟩
  rw [hx] at hgb
  simp only [floating_block, hx]
  cases r with
  | error e => exact hgb
  | ok pr =>
    obtain ⟨bmk, mt⟩ := pr
    cases bmk with
    | some bm =>
      cases hdg : dictGet? { tr with floating := tr.floating + 1 }.benchmark_data bm <;>
        simp only [hdg] <;> exact hgb
    | none => exact hgb

theorem taxonomy_grow_parse_security_rest (s : Security) (tr : Tracker) (ad : AssessArg)
    (arg : LiborsArg) (nl : List (String × BmData)) (cm : CmLog) :
    LiborsArgGrow arg (parse_security_rest s tr ad arg nl cm).2.2.1
    ∧ NLGrow nl (parse_security_rest s tr ad arg nl cm).2.2.2.1 := by
  simp only [parse_security_rest]
  by_cases hdup : get_isin s = tr.last_isin
  · simp only [if_pos hdup]
    exact ⟨liborsArgGrow_refl arg, nlGrow_refl nl⟩
  · simp only [if_neg hdup, get_maturity]
    exact ⟨liborsArgGrow_refl arg, nlGrow_refl nl⟩

theorem taxonomy_grow_parse_security (s : Security) (tr : Tracker) (ad : AssessArg)
    (arg : LiborsArg) (nl : List (String × BmData)) (cm : CmLog) :
    LiborsArgGrow arg (parse_security s tr ad arg nl cm).2.2.1
    ∧ NLGrow nl (parse_security s tr ad arg nl cm).2.2.2.1 := by
  simp only [parse_security, get_tv_dates]
  cases htd : s.term_date with
  | none => exact taxonomy_grow_parse_security_rest s tr ad arg nl cm
  | some t =>
    cases ad with
    | dt a =>
      by_cases hlt : t < a
      · simp only [if_pos hlt]
        exact ⟨liborsArgGrow_refl arg, nlGrow_refl nl⟩
      · simp only [if_neg hlt]
        exact taxonomy_grow_parse_security_rest s tr (.dt a) arg nl cm
    | pyTuple l => exact ⟨liborsArgGrow_refl arg, nlGrow_refl nl⟩

theorem setUnion_sub_left : ∀ (r l : List String), l ⊆ setUnion l r := by
  intro r
  induction r with
  | nil => exact fun l a ha => ha
  | cons y r ih =>
    intro l
    have h1 : l ⊆ setAdd y l := sub_setAdd y l
    have h2 : setAdd y l ⊆ setUnion (setAdd y l) r := ih (setAdd y l)
    exact fun a ha => h2 (h1 ha)

theorem libor_list_grow_zipUnion : ∀ (xs ys : List BmData),
    LiborListGrow xs (zipUnionNames xs ys) := by
  intro xs
  induction xs with
  | nil => intro ys; cases ys <;> exact .nil
  | cons x xs ih =>
    intro ys
    cases ys with
    | nil => exact liborListGrow_refl (x :: xs)
    | cons y ys =>
      exact .cons (setUnion_sub_left y.names x.names) (ih ys)

theorem libor_list_grow_merge : ∀ (cs : List (List BmData)) (c : List BmData),
    LiborListGrow c (mergeLiborNames c cs) := by
  intro cs
  induction cs with
  | nil => exact fun c => liborListGrow_refl c
  | cons d ds ih =>
    intro c
    exact liborListGrow_trans (libor_list_grow_zipUnion c d) (ih (zipUnionNames c d))

theorem nlGrow_dictSet (agg : List (String × BmData)) (k : String) (a b : BmData)
    (h : dictGet? agg k = some a) (hsub : a.names ⊆ b.names) :
    NLGrow agg (dictSet agg k b) := by
  induction agg with
  | nil => simp [dictGet?] at h
  | cons kv rest ih =>
    obtain ⟨k0, v0⟩ := kv
    by_cases hk : k0 = k
    · subst hk
      simp only [dictGet?, if_pos rfl] at h
      simp only [dictSet, if_pos rfl]
      have hav : a = v0 := by injection h with h'; exact h'.symm
      subst hav
      exact .cons ⟨rfl, hsub⟩ (nlGrow_refl rest)
    · simp only [dictGet?, if_neg hk] at h
      simp only [dictSet, if_neg hk]
      exact .cons ⟨rfl, fun x hx => hx⟩ (ih h)

theorem nl_grow_mergeNLStep : ∀ (d agg : List (String × BmData)),
    NLGrow agg (mergeNLStep agg d).2 := by
  intro d
  induction d with
  | nil => exact fun agg => nlGrow_refl agg
  | cons kv rest ih =>
    intro agg
    obtain ⟨k, v⟩ := kv
    simp only [mergeNLStep]
    cases hg : dictGet? agg k with
    | none => exact nlGrow_refl agg
    | some a =>
      have h1 := nlGrow_dictSet agg k a { a with names := setUnion a.names v.names } hg
        (setUnion_sub_left v.names a.names)
      exact nlGrow_trans h1 (ih _)

theorem nl_grow_mergeNonLibor : ∀ (ds : List (List (String × BmData)))
    (c : List (String × BmData)), NLGrow c (mergeNonLiborNames c ds).2 := by
  intro ds
  induction ds with
  | nil => exact fun c => nlGrow_refl c
  | cons d rest ih =>
    intro c
    simp only [mergeNonLiborNames]
    have h1 := nl_grow_mergeNLStep d c
    rcases hx : mergeNLStep c d with ⟨r, c'⟩
    rw [hx] at h1
    cases r with
    | error e => exact h1
    | ok u => exact nlGrow_trans h1 (ih c')

/-- C9: the known-names sets only grow.  Matching (`is_benchmark`),
resolving (`is_libor`, the non-LIBOR scan, `get_benchmark`), the
per-record tracker update (`parse_security`, any arguments), and the
post-run taxonomy merges of `parse_multi_files` all leave every
descriptor's `names` a superset of what it was before (pointwise along
each taxonomy collection, keys preserved); no operation removes a name. -/
theorem taxonomy_names_monotone :
    (∀ (bm : BmData) (ir : IrData) (cc : Bool),
      NamesGrow bm (is_benchmark bm ir cc).2.2)
    ∧ (∀ (ir : IrData) (cur : Option String) (arg : LiborsArg),
      LiborsArgGrow arg (is_libor ir cur arg).2)
    ∧ (∀ (ir : IrData) (cc : Bool) (mt0 : Option Mt) (nl : List (String × BmData)),
      NLGrow nl (nonLiborScan ir cc mt0 nl).2)
    ∧ (∀ (ir : IrData) (cur : Option String) (arg : LiborsArg)
        (nl : List (String × BmData)) (isin : Option String) (cm : CmLog),
      LiborsArgGrow arg (get_benchmark ir cur arg nl isin cm).2.1
        ∧ NLGrow nl (get_benchmark ir cur arg nl isin cm).2.2.1)
    ∧ (∀ (s : Security) (tr : Tracker) (ad : AssessArg) (arg : LiborsArg)
        (nl : List (String × BmData)) (cm : CmLog),
      LiborsArgGrow arg (parse_security s tr ad arg nl cm).2.2.1
        ∧ NLGrow nl (parse_security s tr ad arg nl cm).2.2.2.1)
    ∧ (∀ (c : List BmData) (cs : List (List BmData)),
      LiborListGrow c (mergeLiborNames c cs))
    ∧ (∀ (c : List (String × BmData)) (cs : List (List (String × BmData))),
      NLGrow c (mergeNonLiborNames c cs).2) :=
  ⟨names_grow_is_benchmark,
   liborsArgGrow_is_libor,
   fun ir cc mt0 nl => nl_grow_nonLiborScan ir cc mt0 nl,
   taxonomy_grow_get_benchmark,
   taxonomy_grow_parse_security,
   fun c cs => libor_list_grow_merge cs c,
   fun c cs => nl_grow_mergeNonLibor cs c⟩

theorem dictGet?_dictSet_self {κ α : Type} [DecidableEq κ] (m : List (κ × α)) (k : κ) (v : α) :
    dictGet? (dictSet m k v) k = some v := by
  induction m with
  | nil => simp [dictSet, dictGet?]
  | cons kv rest ih =>
    obtain ⟨k0, v0⟩ := kv
    by_cases hk : k0 = k
    · subst hk
      simp [dictSet, dictGet?]
    · simp only [dictSet, if_neg hk, dictGet?, ih]

theorem dictGet?_dictSet_ne {κ α : Type} [DecidableEq κ] (m : List (κ × α)) (k : κ) (v : α)
    (k' : κ) (h : k' ≠ k) : dictGet? (dictSet m k v) k' = dictGet? m k' := by
  induction m with
  | nil =>
    simp only [dictSet, dictGet?]
    rw [if_neg (fun he => h he.symm)]
  | cons kv rest ih =>
    obtain ⟨k0, v0⟩ := kv
    by_cases hk : k0 = k
    · subst hk
      simp only [dictSet, if_pos rfl, dictGet?]
      rw [if_neg (fun he => h he.symm), if_neg (fun he => h he.symm)]
    · simp only [dictSet, if_neg hk, dictGet?]
      by_cases hk' : k0 = k'
      · rw [if_pos hk', if_pos hk']
      · rw [if_neg hk', if_neg hk', ih]

theorem dictGet?_dictUpdate_not_mem {κ α : Type} [DecidableEq κ] :
    ∀ (n : List (κ × α)) (m : List (κ × α)) (k : κ), k ∉ n.map Prod.fst →
      dictGet? (dictUpdate m n) k = dictGet? m k := by
  intro n
  induction n with
  | nil => intro m k _; rfl
  | cons kv rest ih =>
    intro m k h
    obtain ⟨k0, v0⟩ := kv
    simp only [List.map_cons, List.mem_cons] at h
    push_neg at h
    have : dictUpdate m ((k0, v0) :: rest) = dictUpdate (dictSet m k0 v0) rest := rfl
    rw [this, ih (dictSet m k0 v0) k h.2, dictGet?_dictSet_ne m k0 v0 k h.1]

theorem dictGet?_dictUpdate_mem {κ α : Type} [DecidableEq κ] :
    ∀ (n : List (κ × α)) (m : List (κ × α)) (k : κ) (c : α),
      (n.map Prod.fst).Nodup → dictGet? n k = some c →
      dictGet? (dictUpdate m n) k = some c := by
  intro n
  induction n with
  | nil => intro m k c _ h; simp [dictGet?] at h
  | cons kv rest ih =>
    intro m k c hnd h
    obtain ⟨k0, v0⟩ := kv
    simp only [List.map_cons, List.nodup_cons] at hnd
    have hstep : dictUpdate m ((k0, v0) :: rest) = dictUpdate (dictSet m k0 v0) rest := rfl
    by_cases hk : k0 = k
    · subst hk
      simp only [dictGet?, if_pos rfl] at h
      rw [hstep, dictGet?_dictUpdate_not_mem rest (dictSet m k0 v0) k0 hnd.1,
        dictGet?_dictSet_self]
      exact h
    · simp only [dictGet?, if_neg hk] at h
      rw [hstep]
      exact ih (dictSet m k0 v0) k c hnd.2 h

theorem sumBmField_ok {α : Type} [AddMonoid α] (f : BmAgg → α) :
    ∀ (ts : List Tracker) (bm : String) (v : α), sumBmField f 0 ts bm = .ok v →
      v = (ts.map (fun t => f ((dictGet? t.benchmark_data bm).getD ⟨0, 0, 0⟩))).sum := by
  intro ts
  induction ts with
  | nil =>
    intro bm v h
    simp only [sumBmField, Except.ok.injEq] at h
    simp [← h]
  | cons t rest ih =>
    intro bm v h
    simp only [sumBmField] at h
    cases hdg : dictGet? t.benchmark_data bm with
    | none => rw [hdg] at h; cases h
    | some w =>
      rw [hdg] at h
      cases hr : sumBmField f 0 rest bm with
      | error e => rw [hr] at h; cases h
      | ok r =>
        rw [hr] at h
        simp only [Except.ok.injEq] at h
        rw [← h, List.map_cons, List.sum_cons, hdg, ih bm r hr]
        rfl

theorem sumBmField_isOk {α : Type} [Add α] (f : BmAgg → α) (z : α) :
    ∀ (ts : List Tracker) (bm : String),
      (∀ t ∈ ts, (dictGet? t.benchmark_data bm).isSome = true) →
      ∃ v, sumBmField f z ts bm = .ok v := by
  intro ts
  induction ts with
  | nil => exact fun bm _ => ⟨z, rfl⟩
  | cons t rest ih =>
    intro bm h
    have ht := h t (List.mem_cons_self t rest)
    obtain ⟨w, hw⟩ := Option.isSome_iff_exists.mp ht
    obtain ⟨r, hr⟩ := ih bm (fun t' ht' => h t' (List.mem_cons_of_mem t ht'))
    exact ⟨f w + r, by simp only [sumBmField, hw, hr]⟩

theorem aggBmdGo_isOk (ts : List Tracker) :
    ∀ l : List (String × BmAgg),
      (∀ kv ∈ l, ∀ t ∈ ts, (dictGet? t.benchmark_data kv.1).isSome = true) →
      (aggBmdGo ts l).1 = .ok () := by
  intro l
  induction l with
  | nil => intro _; rfl
  | cons kv rest ih =>
    intro h
    obtain ⟨bm, old⟩ := kv
    have hbm := h (bm, old) (List.mem_cons_self _ _)
    obtain ⟨c, hc⟩ := sumBmField_isOk BmAgg.count 0 ts bm hbm
    obtain ⟨n, hn⟩ := sumBmField_isOk BmAgg.agg_nominal 0 ts bm hbm
    obtain ⟨m, hm⟩ := sumBmField_isOk BmAgg.agg_maturity 0 ts bm hbm
    have hrest := ih (fun kv' hkv' => h kv' (List.mem_cons_of_mem _ hkv'))
    simp only [aggBmdGo, hc, hn, hm]
    rcases hgo : aggBmdGo ts rest with ⟨r, rest'⟩
    rw [hgo] at hrest
    simp only at hrest
    cases r with
    | error e => cases hrest
    | ok u => rfl

theorem aggBmdGo_ok_val (ts : List Tracker) :
    ∀ l : List (String × BmAgg), (aggBmdGo ts l).1 = .ok () →
      (aggBmdGo ts l).2 = l.map (fun kv =>
        (kv.1, ⟨bmCountSum ts kv.1, bmMaturitySum ts kv.1, bmNominalSum ts kv.1⟩)) := by
  intro l
  induction l with
  | nil => intro _; rfl
  | cons kv rest ih =>
    intro h
    obtain ⟨bm, old⟩ := kv
    simp only [aggBmdGo] at h ⊢
    cases hc : sumBmField BmAgg.count 0 ts bm with
    | error e => simp only [hc] at h; exact Except.noConfusion h
    | ok c =>
      simp only [hc] at h ⊢
      cases hn : sumBmField BmAgg.agg_nominal 0 ts bm with
      | error e => simp only [hn] at h; exact Except.noConfusion h
      | ok n =>
        simp only [hn] at h ⊢
        cases hm : sumBmField BmAgg.agg_maturity 0 ts bm with
        | error e => simp only [hm] at h; exact Except.noConfusion h
        | ok m =>
          simp only [hm] at h ⊢
          rcases hgo : aggBmdGo ts rest with ⟨r, rest'⟩
          simp only [hgo] at h ⊢
          cases r with
          | error e => simp at h
          | ok u =>
            have hrest : (aggBmdGo ts rest).2 = rest.map (fun kv =>
                (kv.1, ⟨bmCountSum ts kv.1, bmMaturitySum ts kv.1, bmNominalSum ts kv.1⟩)) := by
              apply ih
              rw [hgo]
            rw [hgo] at hrest
            simp only at hrest ⊢
            rw [List.map_cons, ← hrest]
            have hcv : c = bmCountSum ts bm := sumBmField_ok BmAgg.count ts bm c hc
            have hnv : n = bmNominalSum ts bm := sumBmField_ok BmAgg.agg_nominal ts bm n hn
            have hmv : m = bmMaturitySum ts bm := sumBmField_ok BmAgg.agg_maturity ts bm m hm
            rw [hcv, hnv, hmv]

theorem dictGet?_map_keys {κ α β : Type} [DecidableEq κ] (g : κ → β) :
    ∀ (l : List (κ × α)) (k : κ),
      dictGet? (l.map (fun kv => (kv.1, g kv.1))) k = (dictGet? l k).map (fun _ => g k) := by
  intro l
  induction l with
  | nil => intro k; rfl
  | cons kv rest ih =>
    intro k
    obtain ⟨k0, v0⟩ := kv
    by_cases hk : k0 = k
    · subst hk
      simp [dictGet?]
    · simp only [List.map_cons, dictGet?, if_neg hk]
      exact ih k

theorem aggregate_sh_writes_sums (ts : List Tracker) (p : ProcState)
    (hok : isPyError (aggregate_trackers_sh ts p).1 = false) (bm : String) :
    dictGet? (aggregate_trackers_sh ts p).2.shBmd bm
      = (dictGet? p.shBmd bm).map
          (fun _ => ⟨bmCountSum ts bm, bmMaturitySum ts bm, bmNominalSum ts bm⟩) := by
  simp only [aggregate_trackers_sh] at hok ⊢
  rcases hgo : aggBmdGo ts p.shBmd with ⟨r, l'⟩
  simp only [hgo] at hok ⊢
  cases r with
  | error e => simp [isPyError] at hok
  | ok u =>
    have h1 : (aggBmdGo ts p.shBmd).1 = .ok () := by rw [hgo]
    have h2 := aggBmdGo_ok_val ts p.shBmd h1
    rw [hgo] at h2
    simp only at h2
    simp only [h2]
    exact dictGet?_map_keys (fun b => (⟨bmCountSum ts b, bmMaturitySum ts b, bmNominalSum ts b⟩ : BmAgg)) p.shBmd bm

/-- C10, amended: every tracker `init_tracker` returns has zero scalar
counters and no last-seen ISIN; but its nested benchmark and
uncategorized maps are the process's shared prototype maps (the shallow
copy copies only the top level), so its per-benchmark aggregates equal
whatever the shared map currently holds; and `aggregate_trackers` writes
its per-benchmark sums into that shared map, so after a successful
aggregation a fresh tracker's benchmark view equals those sums rather
than being unconditionally zero. -/
theorem init_tracker_shallow_sharing :
    (∀ p : ProcState, init_tracker_sh p = ⟨none, 0, 0, 0, 0, 0, 0⟩)
    ∧ (∀ p : ProcState, (viewTracker (init_tracker_sh p) p).benchmark_data = p.shBmd
        ∧ (viewTracker (init_tracker_sh p) p).floating_uncat = p.shUncat)
    ∧ (∀ (ts : List Tracker) (p : ProcState),
        isPyError (aggregate_trackers_sh ts p).1 = false →
        ∀ bm : String,
          dictGet? (viewTracker (init_tracker_sh (aggregate_trackers_sh ts p).2)
              (aggregate_trackers_sh ts p).2).benchmark_data bm
            = (dictGet? p.shBmd bm).map
                (fun _ => ⟨bmCountSum ts bm, bmMaturitySum ts bm, bmNominalSum ts bm⟩)) :=
  ⟨fun _ => rfl, fun _ => ⟨rfl, rfl⟩,
   fun ts p hok bm => aggregate_sh_writes_sums ts p hok bm⟩

/-- Witness for the amended C10 statement at a concrete run: one
aggregation over a tracker with SOFR count 2 leaves the shared maps
holding that sum, and the next `init_tracker` sees it. -/
theorem init_tracker_shallow_sharing_witness :
    dictGet? (viewTracker (init_tracker_sh (aggregate_trackers_sh [c10wt] procState0).2)
        (aggregate_trackers_sh [c10wt] procState0).2).benchmark_data "SOFR"
      = (dictGet? procState0.shBmd "SOFR").map
          (fun _ => ⟨bmCountSum [c10wt] "SOFR", bmMaturitySum [c10wt] "SOFR",
            bmNominalSum [c10wt] "SOFR"⟩) :=
  init_tracker_shallow_sharing.2.2 [c10wt] procState0 (by decide) "SOFR"

theorem uncatOf_updateOne (u : UncatMaps) (t : Tracker) (k : UncatKind) :
    uncatOf (uncatUpdateOne u t) k = dictUpdate (uncatOf u k) (uncatOf t.floating_uncat k) := by
  cases k <;> rfl

/-- C7: when two (well-formed) trackers both carry an occurrence count
for the same literal identifier under the same kind, the aggregate's
entry for that identifier is one of the two counts — `dict.update` keeps
the last writer's value — and not their sum. -/
theorem uncat_union_keeps_one (t1 t2 : Tracker) (k : UncatKind) (v : Option String)
    (c1 c2 : Nat)
    (h1 : dictGet? (uncatOf t1.floating_uncat k) v = some c1)
    (h2 : dictGet? (uncatOf t2.floating_uncat k) v = some c2)
    (hnd : ((uncatOf t2.floating_uncat k).map Prod.fst).Nodup)
    (hpos : 0 < c1)
    (hkeys : ∀ bm ∈ benchmark_names,
      (dictGet? t1.benchmark_data bm).isSome = true
        ∧ (dictGet? t2.benchmark_data bm).isSome = true) :
    ∃ res : Tracker, aggregate_trackers [t1, t2] = .ok res
      ∧ (dictGet? (uncatOf res.floating_uncat k) v = some c1
          ∨ dictGet? (uncatOf res.floating_uncat k) v = some c2)
      ∧ dictGet? (uncatOf res.floating_uncat k) v ≠ some (c1 + c2) := by
  have hgo : (aggBmdGo [t1, t2] procState0.shBmd).1 = .ok () := by
    apply aggBmdGo_isOk
    intro kv hkv t ht
    have hbm : kv.1 ∈ benchmark_names := by
      have hps : procState0.shBmd
          = benchmark_names.map (fun bm => (bm, ({ count := 0, agg_maturity := 0, agg_nominal := 0 } : BmAgg))) := rfl
      rw [hps] at hkv
      obtain ⟨b, hb, hbe⟩ := List.mem_map.mp hkv
      rw [← hbe]
      exact hb
    have hks := hkeys kv.1 hbm
    rcases List.mem_cons.mp ht with h | h
    · rw [h]; exact hks.1
    · rw [List.mem_singleton.mp h]; exact hks.2
  rcases hgo2 : aggBmdGo [t1, t2] procState0.shBmd with ⟨r, l'⟩
  rw [hgo2] at hgo
  simp only at hgo
  subst hgo
  simp only [aggregate_trackers, aggregate_trackers_sh, hgo2]
  refine ⟨_, rfl, ?_, ?_⟩
  · right
    have hu : uncatOf (viewTracker
        { init_tracker_sh procState0 with
            floating := ([t1, t2].map Tracker.floating).sum,
            fixed := ([t1, t2].map Tracker.fixed).sum,
            duplicates := ([t1, t2].map Tracker.duplicates).sum,
            matured := ([t1, t2].map Tracker.matured).sum,
            delisted := ([t1, t2].map Tracker.delisted).sum,
            zero_nominal := ([t1, t2].map Tracker.zero_nominal).sum }
        ⟨l', uncatFold [t1, t2] procState0.shUncat⟩).floating_uncat k
        = dictUpdate (dictUpdate (uncatOf emptyUncat k) (uncatOf t1.floating_uncat k))
            (uncatOf t2.floating_uncat k) := by
      cases k <;> rfl
    rw [hu]
    exact dictGet?_dictUpdate_mem (uncatOf t2.floating_uncat k) _ v c2 hnd h2
  · have hu : uncatOf (viewTracker
        { init_tracker_sh procState0 with
            floating := ([t1, t2].map Tracker.floating).sum,
            fixed := ([t1, t2].map Tracker.fixed).sum,
            duplicates := ([t1, t2].map Tracker.duplicates).sum,
            matured := ([t1, t2].map Tracker.matured).sum,
            delisted := ([t1, t2].map Tracker.delisted).sum,
            zero_nominal := ([t1, t2].map Tracker.zero_nominal).sum }
        ⟨l', uncatFold [t1, t2] procState0.shUncat⟩).floating_uncat k
        = dictUpdate (dictUpdate (uncatOf emptyUncat k) (uncatOf t1.floating_uncat k))
            (uncatOf t2.floating_uncat k) := by
      cases k <;> rfl
    rw [hu, dictGet?_dictUpdate_mem (uncatOf t2.floating_uncat k) _ v c2 hnd h2]
    intro he
    have : c2 = c1 + c2 := by injection he
    omega

/-- Witness: two trackers carrying FOO with counts 2 and 3 aggregate to
an entry of 3, not 5. -/
theorem uncat_union_keeps_one_witness :
    ∃ res : Tracker, aggregate_trackers [c7t1, c7t2] = .ok res
      ∧ (dictGet? (uncatOf res.floating_uncat UncatKind.iname) (some "FOO") = some 2
          ∨ dictGet? (uncatOf res.floating_uncat UncatKind.iname) (some "FOO") = some 3)
      ∧ dictGet? (uncatOf res.floating_uncat UncatKind.iname) (some "FOO") ≠ some (2 + 3) :=
  uncat_union_keeps_one c7t1 c7t2 UncatKind.iname (some "FOO") 2 3
    (by decide) (by decide) (by decide) (by decide) (by decide)
